import Mathlib

/-!
Verification of the speakeasy command-processing pipeline
(`src/functions/speakeasy/index.js`, primary variant).

The JavaScript handler is shallowly embedded: every DynamoDB / lock-API /
relay interaction is recorded as an `Effect`, the environment (store
contents, downstream responses, clock, random index, latencies) is an
explicit `Env`, and an unhandled JavaScript exception is modelled as the
`crashed` outcome.  Timestamps are integers (seconds for store data,
milliseconds for the unlock timers, kept in separate types).
-/

namespace Speakeasy

/-- One entry of `user.speakeasy.attempts`: `{ at, op }` (`at` is a reserved
word in Lean, so the field is called `atTime`). -/
structure Attempt where
  atTime : Int
  op : String
deriving DecidableEq

/-- A user record from the `TFoSlackUsers` table, restricted to the fields
the pipeline reads: `id`, `speakeasy.enabled`, `speakeasy.attempts`,
`speakeasy.disableRateLimiting`, `speakeasy.expires`.  Truthiness of the
boolean fields is modelled by `Bool`; a missing list or timestamp by
`Option`. -/
structure UserRec where
  id : String
  enabled : Bool
  attempts : Option (List Attempt)
  disableRateLimiting : Bool
  expires : Option Int
deriving DecidableEq

/-- One `{ username, password }` entry of the credential pool. -/
structure LoginCred where
  username : String
  password : String
deriving DecidableEq

/-- A `DOOR_CODES` catalog entry: `{ name, key, code }`. -/
structure Door where
  name : String
  key : String
  code : String
deriving DecidableEq

def N_PASSES : Nat := 10

def DOOR_CODES : List Door :=
  [ ⟨"Brip West Outer", "bwo", "3768"⟩,
    ⟨"Brip West Inner", "bwi", "3766"⟩,
    ⟨"Brip Parking Lot", "bs", "3767"⟩,
    ⟨"Downtown Outer", "do", "3641"⟩,
    ⟨"Downtown Inner", "di", "3640"⟩ ]

/-- JavaScript `toLowerCase()` on the ASCII door keys, mapped over the
character list. -/
def toLowerStr (s : String) : String := ⟨s.data.map Char.toLower⟩

/-- Observable side effects of one request, in the order they are issued. -/
inductive Effect where
  | getSettings (key : String)
  | getUser (id : String)
  | scanUsers
  | updateAttempts (id : String) (val : List Attempt)
  | updateExpires (id : String) (val : Int)
  | signIn
  | peek (code : String)
  | unlock (code : String)
  | relay (text : Option String)
deriving DecidableEq

/-- The external world: results of every store / lock-API call the pipeline
may make, the clock, the random credential index, per-lock latencies of the
unlock calls (milliseconds), and moment's relative-time renderer. -/
structure Env where
  getToken : Except String (Option String)
  getUser : Except String (Option UserRec)
  scanUsers : Except String (List UserRec)
  getLogins : Except String (Option (List LoginCred))
  updateAttemptsResult : Option String
  updateExpiresResult : Option String
  signIn : Except String String
  peek : String → Except String String
  unlock : String → Except String String
  latency : String → Nat
  fromNow : Int → String
  now : Int
  randIndex : Nat

/-- The parsed inbound body: `{ text, command, token, user_id }`. -/
structure Request where
  text : String
  command : String
  token : String
  user_id : String

/-- The mutable `state` object threaded through the waterfall. -/
structure PState where
  args : List String
  command : String
  token : String
  userId : String
  canonicalToken : Option String
  user : Option UserRec
  logins : Option (List LoginCred)
  headers : Option String

/-- Result of one (or several composed) waterfall stages: success carrying
the accumulated effect trace, failure with the user-facing message passed to
`done(err)`, or an unhandled JavaScript exception. -/
inductive StageResult (α : Type) where
  | ok (trace : List Effect) (val : α)
  | fail (trace : List Effect) (msg : String)
  | crash (trace : List Effect)

def StageResult.trace : StageResult α → List Effect
  | .ok t _ => t
  | .fail t _ => t
  | .crash t => t

def StageResult.prepend (t : List Effect) : StageResult α → StageResult α
  | .ok t2 a => .ok (t ++ t2) a
  | .fail t2 m => .fail (t ++ t2) m
  | .crash t2 => .crash (t ++ t2)

/-- `async.waterfall` sequencing: a failed or crashed stage short-circuits. -/
def StageResult.andThen : StageResult α → (α → StageResult β) → StageResult β
  | .ok t a, f => StageResult.prepend t (f a)
  | .fail t m, _ => .fail t m
  | .crash t, _ => .crash t

def genericErrorMsg : String :=
  "I didn't catch that... try to run `/speakeasy help` for info on how to use this command."

def authUnavailableMsg : String :=
  "I can't confirm that this request is originating from Slack."

def authMismatchMsg : String :=
  "Cannot verify request originated from Slack... exiting."

def userNotFoundMsg : String :=
  "I can't find a record of you in my database. Please contact Mike to have your access to this service enabled."

def noUserMsg : String :=
  "Cannot proceed without a recognized user"

def notEnabledMsg : String :=
  "Rollout of this service is currently limited, and your account is not enabled."

def rateLimitMsg : String :=
  "Requests to this service are limited to 3 every 60 seconds.\nPlease wait for a few seconds and try again.\nThis request has not counted against your 3 requests; only successful `checkout`, `status`, and `unlock` requests count."

def loginsMissingMsg : String :=
  "Valid KISI login list cannot be found. I can't proceed."

def unknownCommandMsg : String :=
  "Command not recognized. Try `/speakeasy help` to start."

def capacityMsg : String :=
  "Unfortunately, it looks like all the current passes have been checked out. Please try again within the next 24 hours."

def checkoutSuccessMsg : String :=
  "Your pass has been extended for 24 hours. Enjoy!"

def noDoorArgMsg : String :=
  "Please provide a door to unlock."

def unknownDoorMsg : String :=
  "Sorry, but I don't recognize that door. Please run `/speakeasy help` for more info."

def noPassMsg : String :=
  "Please run `/speakeasy checkout` to get a pass to access the SpeakEasy."

def passExpiredMsg : String :=
  "Your pass has expired. Re-run `/speakeasy checkout` to assign yourself a new pass."

/-- Help text of the primary variant's `GetHelp`. -/
def GetHelp : String :=
  "*Controls access to the SpeakEasy*\n"
    ++ "```\n"
    ++ "/speakeasy help\n"
    ++ "```\n"
    ++ "_display this text_\n"
    ++ "```\n"
    ++ "/speakeasy status\n"
    ++ "```\n"
    ++ "_checks the status of our connection with the SpeakEasy and your checked-out pass_\n"
    ++ "```\n"
    ++ "/speakeasy checkout\n"
    ++ "```\n"
    ++ "_grants you a pass to access the SpeakEasy for 24 hours_\n"
    ++ "```\n"
    ++ "/speakeasy unlock {door}\n"
    ++ "```\n"
    ++ "_unlock a specific door_\n\n"
    ++ "*Doors*\n"
    ++ "  - `bwo`: broad ripple > west side > outer\n"
    ++ "  - `bwi`: broad ripple > west side > inner\n"
    ++ "  - `bw`: broad ripple > west side > outer then inner on a time delay\n"
    ++ "  - `bs`: broad ripple > south side (parking lot)\n"
    ++ "  - `do`: downtown > outer\n"
    ++ "  - `di`: downtown > inner\n"
    ++ "\n\n"
    ++ "I'd recommend running `/speakeasy status` before making a trip to the SpeakEasy "
    ++ "of your choice. If the status check comes back operational then you should be good to go.\n"
    ++ "Some functionality of this app is rate-limited.\n"
    ++ "Please keep in mind that you may stay in the SpeakEasy 24/7, but the doors to get in do lock "
    ++ "at 10pm in Broad Ripple and a bit earlier Downtown. `/speakeasy status` will reflect this.\n"
    ++ "Contact Mike with any questions or concerns."

/-- `GetSlackAuthToken`: reads the `slack_auth_token` settings record and
stores it on the state. -/
def GetSlackAuthToken (env : Env) (state : PState) : StageResult PState :=
  match env.getToken with
  | .error e => .fail [.getSettings "slack_auth_token"] e
  | .ok none => .fail [.getSettings "slack_auth_token"] authUnavailableMsg
  | .ok (some v) =>
      .ok [.getSettings "slack_auth_token"] { state with canonicalToken := some v }

/-- `CheckSlackAuthToken`: `state.canonicalToken !== state.token` rejects. -/
def CheckSlackAuthToken (state : PState) : StageResult PState :=
  if state.canonicalToken ≠ some state.token then .fail [] authMismatchMsg
  else .ok [] state

/-- `GetCallingUser`: reads the caller's record from `TFoSlackUsers`. -/
def GetCallingUser (env : Env) (state : PState) : StageResult PState :=
  match env.getUser with
  | .error e => .fail [.getUser state.userId] e
  | .ok none => .fail [.getUser state.userId] userNotFoundMsg
  | .ok (some u) => .ok [.getUser state.userId] { state with user := some u }

/-- Operation names that count towards the rate limit
(`['checkout', 'status', 'unlock', 'open']`). -/
def rateLimitedOps : List String := ["checkout", "status", "unlock", "open"]

/-- One attempt qualifies when `moment(a.at).isAfter(moment().subtract(1,
'minute'))` and its `op` is in the allow-list. -/
def isRecentQualifying (now : Int) (a : Attempt) : Bool :=
  decide (now - 60 < a.atTime) && rateLimitedOps.contains a.op

/-- The blocking condition of `CheckCallingUser`: attempts are present, the
early exit `!attempts || attempts.length < 3 || disabled` does not fire, and
at least 3 qualifying attempts fall in the trailing 60 seconds. -/
def rateLimitBlocked (now : Int) (u : UserRec) : Bool :=
  match u.attempts with
  | none => false
  | some attempts =>
      if attempts.length < 3 || u.disableRateLimiting then false
      else decide ((attempts.filter (isRecentQualifying now)).length ≥ 3)

/-- `CheckCallingUser`: feature gate, then the rate limit. -/
def CheckCallingUser (env : Env) (state : PState) : StageResult PState :=
  match state.user with
  | none => .fail [] noUserMsg
  | some user =>
      if !user.enabled then .fail [] notEnabledMsg
      else if rateLimitBlocked env.now user then .fail [] rateLimitMsg
      else .ok [] state

/-- The list `RegisterUserAttempt` writes back: prepend `{ at: now, op:
state.command }` to the previous attempts (missing list defaults to `[]`)
and keep at most the first 5. -/
def newAttempts (now : Int) (command : String) (prev : Option (List Attempt)) : List Attempt :=
  let p := ⟨now, command⟩ :: prev.getD []
  if p.length > 5 then p.take 5 else p

/-- `RegisterUserAttempt`: writes the new attempts list to the user record
(`state.user.id` is dereferenced, so a missing user would throw). -/
def RegisterUserAttempt (env : Env) (state : PState) : StageResult PState :=
  match state.user with
  | none => .crash []
  | some u =>
      let attemptsList := newAttempts env.now state.command u.attempts
      match env.updateAttemptsResult with
      | some e => .fail [.updateAttempts u.id attemptsList] e
      | none => .ok [.updateAttempts u.id attemptsList] state

/-- `GetLogins`: reads the `logins` settings record. -/
def GetLogins (env : Env) (state : PState) : StageResult PState :=
  match env.getLogins with
  | .error e => .fail [.getSettings "logins"] e
  | .ok none => .fail [.getSettings "logins"] loginsMissingMsg
  | .ok (some l) => .ok [.getSettings "logins"] { state with logins := some l }

/-- `Login`: picks `validCredentials[Math.floor(Math.random() * length)]`
and signs in.  An empty pool makes the chosen element `undefined`, so
`login.username` throws before any request is issued: that is the `crash`
branch. -/
def Login (env : Env) (state : PState) : StageResult PState :=
  match state.logins with
  | none => .crash []
  | some validCredentials =>
      match validCredentials.get? (env.randIndex % validCredentials.length) with
      | none => .crash []
      | some _login =>
          match env.signIn with
          | .error e => .fail [.signIn] e
          | .ok secret => .ok [.signIn] { state with headers := some secret }

/-- `moment(u.speakeasy.expires).isAfter(moment())` as used by the pass
counting in both `StatusHandler` and `CheckoutHandler`. -/
def hasActivePass (now : Int) (u : UserRec) : Bool :=
  match u.expires with
  | some t => decide (now < t)
  | none => false

/-- `GetDoorStatus`: one line per door; a transport error degrades to a
warning line passed to `doorDone(null, ...)`, never to an error. -/
def GetDoorStatus (env : Env) (door : Door) : String :=
  match env.peek door.code with
  | .error _ => ":warning: " ++ door.name ++ " [`" ++ door.key ++ "`]: `A bad error occurred.`"
  | .ok msg =>
      let emoji := if msg = "Access not restricted!" then ":+1:" else ":no_good:"
      emoji ++ " " ++ door.name ++ " [`" ++ door.key ++ "`]: `" ++ msg ++ "`"

/-- The `_.reduce` that joins the per-door lines with newlines. -/
def joinStatuses (doorStatuses : List String) : String :=
  doorStatuses.enum.foldl
    (fun sum p => (if p.1 ≠ 0 then sum ++ "\n" else sum) ++ p.2) ""

/-- `StatusHandler`: peeks every door (results assembled in catalog order by
`async.map`), scans users for the active-pass count, and appends the
caller's own pass status. -/
def StatusHandler (env : Env) (state : PState) : StageResult (Option String) :=
  let doorStatuses := DOOR_CODES.map (GetDoorStatus env)
  let peeks : List Effect := DOOR_CODES.map (fun d => .peek d.code)
  let message := "I'm reading the lock statuses as follows\n" ++ joinStatuses doorStatuses ++ "\n"
  match env.scanUsers with
  | .error e => .fail (peeks ++ [.scanUsers]) e
  | .ok allUsers =>
      let havePasses := allUsers.filter (hasActivePass env.now)
      let message := message ++ "Right now, there are " ++ toString havePasses.length
        ++ " passes checked out, out of " ++ toString N_PASSES ++ " total.\n"
      match state.user with
      | none => .crash (peeks ++ [.scanUsers])
      | some u =>
          match u.expires with
          | some userExpires =>
              let inEnglish := env.fromNow userExpires
              if userExpires < env.now then
                .ok (peeks ++ [.scanUsers])
                  (some (message ++ "Your last pass expired " ++ inEnglish ++ ". "
                    ++ "Run `/speakeasy checkout` to get a new one."))
              else
                .ok (peeks ++ [.scanUsers])
                  (some (message ++ "You have an active pass which expires " ++ inEnglish ++ "."))
          | none =>
              .ok (peeks ++ [.scanUsers])
                (some (message ++ "You haven't checked out a pass yet. Try `/speakeasy checkout` if you'd like one!"))

/-- `CheckoutHandler`: scan, capacity check against `N_PASSES`, then write
`expires = now + 24h` (86400 seconds). -/
def CheckoutHandler (env : Env) (state : PState) : StageResult (Option String) :=
  match env.scanUsers with
  | .error e => .fail [.scanUsers] e
  | .ok allUsers =>
      let havePasses := allUsers.filter (hasActivePass env.now)
      if havePasses.length ≥ N_PASSES then .fail [.scanUsers] capacityMsg
      else
        match state.user with
        | none => .crash [.scanUsers]
        | some u =>
            match env.updateExpiresResult with
            | some e => .fail [.scanUsers, .updateExpires u.id (env.now + 86400)] e
            | none => .ok [.scanUsers, .updateExpires u.id (env.now + 86400)] (some checkoutSuccessMsg)

/-- An event of the unlock phase with its scheduled time in milliseconds
from the start of `async.eachOf` (timers of 10ms and 10000ms, plus the HTTP
latency for the relayed result). -/
structure TimedEvent where
  time : Nat
  ev : Effect
deriving DecidableEq

/-- Structural worker for `mergeEvents`: the fuel is always at least the
sum of the two lengths, so the first equation never fires. -/
def mergeEventsFuel : Nat → List TimedEvent → List TimedEvent → List TimedEvent
  | 0, xs, ys => xs ++ ys
  | _ + 1, [], ys => ys
  | _ + 1, x :: xs, [] => x :: xs
  | n + 1, x :: xs, y :: ys =>
      if x.time ≤ y.time then x :: mergeEventsFuel n xs (y :: ys)
      else y :: mergeEventsFuel n (x :: xs) ys

/-- Chronological interleaving of two already-chronological event streams
(ties resolved in favour of the left stream). -/
def mergeEvents (xs ys : List TimedEvent) : List TimedEvent :=
  mergeEventsFuel (xs.length + ys.length) xs ys

/-- The text relayed for one unlocked door: the transport error if any,
otherwise the response's `message`. -/
def unlockMessage (env : Env) (door : Door) : String :=
  match env.unlock door.code with
  | .error e => e
  | .ok m => m

/-- The two events of one door's `setTimeout`-staggered unlock: the unlock
call fires at `i > 0 ? 10000 : 10` milliseconds, and its result is relayed
as soon as the call completes. -/
def doorUnlockStream (env : Env) (i : Nat) (door : Door) : List TimedEvent :=
  let timeout := if i > 0 then 10000 else 10
  [ ⟨timeout, .unlock door.code⟩,
    ⟨timeout + env.latency door.code, .relay (some (door.name ++ ": " ++ unlockMessage env door))⟩ ]

/-- Real-time ordering of all events produced by `async.eachOf` over the
resolved door list. -/
def unlockTimeline (env : Env) (doors : List Door) : List TimedEvent :=
  (doors.enum.map (fun p => doorUnlockStream env p.1 p.2)).foldr mergeEvents []

/-- Extracts the doors from the `_.find` results; `none` anywhere would mean
dereferencing `undefined` inside the unlock callback. -/
def allSome : List (Option α) → Option (List α)
  | [] => some []
  | none :: _ => none
  | some a :: rest => (allSome rest).map (fun l => a :: l)

/-- `UnlockHandler`: argument check, door-key resolution (`bw` expands to
the outer and inner west doors; otherwise `args[0].toLowerCase()` is looked
up), pass validity checks, then the staggered unlock loop.  Its `done`
callback forwards only the error, so the handler's value is `none`. -/
def UnlockHandler (env : Env) (state : PState) : StageResult (Option String) :=
  if state.args.length < 1 then .fail [] noDoorArgMsg
  else
    match state.args with
    | [] => .crash []
    | arg0 :: _ =>
        let doorKey : Except String (List (Option Door)) :=
          if arg0 = "bw" then
            .ok [ DOOR_CODES.find? (fun c => c.key = "bwo"),
                  DOOR_CODES.find? (fun c => c.key = "bwi") ]
          else
            match DOOR_CODES.find? (fun c => c.key = toLowerStr arg0) with
            | none => .error unknownDoorMsg
            | some door => .ok [some door]
        match doorKey with
        | .error m => .fail [] m
        | .ok doors =>
            match state.user with
            | none => .crash []
            | some u =>
                match u.expires with
                | none => .fail [] noPassMsg
                | some exp =>
                    if exp < env.now then .fail [] passExpiredMsg
                    else
                      match allSome doors with
                      | none => .crash []
                      | some doorList =>
                          .ok ((unlockTimeline env doorList).map TimedEvent.ev) none

/-- `GetDispatchHandler`: the `switch (state.command)` with fall-through
from `case 'unlock'` to `case 'open'`. -/
def GetDispatchHandler (env : Env) (state : PState) : StageResult (Option String) :=
  if state.command = "status" then StatusHandler env state
  else if state.command = "checkout" then CheckoutHandler env state
  else if state.command = "unlock" ∨ state.command = "open" then UnlockHandler env state
  else .fail [] unknownCommandMsg

/-- The initial state built by the first waterfall step. -/
def initState (textSplit : List String) (req : Request) : PState :=
  { args := textSplit, command := req.command, token := req.token,
    userId := req.user_id, canonicalToken := none, user := none,
    logins := none, headers := none }

/-- The `async.waterfall` of `exports.handle`. -/
def runWaterfall (env : Env) (st : PState) : StageResult (Option String) :=
  (GetSlackAuthToken env st).andThen fun s1 =>
  (CheckSlackAuthToken s1).andThen fun s2 =>
  (GetCallingUser env s2).andThen fun s3 =>
  (CheckCallingUser env s3).andThen fun s4 =>
  (RegisterUserAttempt env s4).andThen fun s5 =>
  (GetLogins env s5).andThen fun s6 =>
  (Login env s6).andThen fun s7 =>
  GetDispatchHandler env s7

/-- Whether the request ran to completion or died on an unhandled
exception. -/
inductive POutcome where
  | ok
  | crashed
deriving DecidableEq

/-- The full observable behaviour of one request. -/
structure RunResult where
  trace : List Effect
  outcome : POutcome
deriving DecidableEq

/-- The waterfall's completion callback: `respond(err || message)`.  A
falsy `err` (null, or the empty string) falls through to `message`, which
is `undefined` for the unlock handler. -/
def finishRelay : StageResult (Option String) → RunResult
  | .ok t m => ⟨t ++ [.relay m], .ok⟩
  | .fail t e => ⟨t ++ [.relay (if e = "" then none else some e)], .ok⟩
  | .crash t => ⟨t, .crashed⟩

/-- JavaScript `split` on the single space character (code point 32),
working down the character list.  `"".split(" ")` is `[""]`, and adjacent
separators produce empty tokens, exactly as in JavaScript. -/
def jsSplitSpace : List Char → List (List Char)
  | [] => [[]]
  | c :: cs =>
      let r := jsSplitSpace cs
      if c = Char.ofNat 32 then [] :: r
      else
        match r with
        | [] => [[c]]
        | w :: ws => (c :: w) :: ws

/-- `body.text.split(" ")`. -/
def splitText (s : String) : List String :=
  (jsSplitSpace s.data).map (fun l => ⟨l⟩)

/-- `exports.handle` of the primary variant: tokenize `body.text`, special
case the empty split and `help`, then run the waterfall and relay its
result. -/
def handle (env : Env) (req : Request) : RunResult :=
  let textSplit := splitText req.text
  if textSplit.length = 0 then ⟨[.relay (some genericErrorMsg)], .ok⟩
  else if textSplit.get? 0 = some "help" then ⟨[.relay (some GetHelp)], .ok⟩
  else finishRelay (runWaterfall env (initState textSplit req))

/-- The relayed texts of a trace, in delivery order. -/
def relaysOf (t : List Effect) : List (Option String) :=
  t.filterMap (fun e => match e with | .relay m => some m | _ => none)

/-- Whether an effect writes to the users table. -/
def isUsersUpdate : Effect → Bool
  | .updateAttempts _ _ => true
  | .updateExpires _ _ => true
  | _ => false

/-- Whether an effect writes the `expires` field. -/
def isExpiresUpdate : Effect → Bool
  | .updateExpires _ _ => true
  | _ => false

/-- Whether an effect is a call to the lock API. -/
def isLockApiCall : Effect → Bool
  | .signIn => true
  | .peek _ => true
  | .unlock _ => true
  | _ => false

/-- `async.map` result assembly: the iteratee's results are written into a
fixed-size array at their input index, in whatever order the calls
complete. -/
def assembleByIndex (n : Nat) (results : Nat → α) (completionOrder : List Nat)
    (dflt : α) : List α :=
  completionOrder.foldl (fun acc i => acc.set i (results i)) (List.replicate n dflt)

theorem jsSplitSpace_ne_nil (cs : List Char) : jsSplitSpace cs ≠ [] := by
  induction cs with
  | nil => simp [jsSplitSpace]
  | cons c cs ih =>
      simp only [jsSplitSpace]
      split
      · simp
      · split
        · simp
        · simp

theorem splitText_ne_nil (s : String) : splitText s ≠ [] := by
  simp [splitText]
  exact jsSplitSpace_ne_nil s.data

theorem splitText_length_ne_zero (s : String) : ¬(splitText s).length = 0 := by
  simp [List.length_eq_zero]
  exact splitText_ne_nil s

/-- An environment in which every downstream dependency is unavailable. -/
def envDown : Env :=
  { getToken := .error "store down", getUser := .error "store down",
    scanUsers := .error "store down", getLogins := .error "store down",
    updateAttemptsResult := some "store down",
    updateExpiresResult := some "store down", signIn := .error "api down",
    peek := fun _ => .error "api down", unlock := fun _ => .error "api down",
    latency := fun _ => 0, fromNow := fun _ => "", now := 0, randIndex := 0 }

/-- An enabled user with an active pass and no attempt history, used by
concrete witnesses. -/
def goodUser : UserRec := ⟨"U1", true, none, false, some 100000⟩

/-- A fully healthy environment used by concrete witnesses. -/
def envGood : Env :=
  { getToken := .ok (some "tok"),
    getUser := .ok (some goodUser),
    scanUsers := .ok [], getLogins := .ok (some [⟨"alice", "pw"⟩]),
    updateAttemptsResult := none, updateExpiresResult := none,
    signIn := .ok "secret", peek := fun _ => .ok "Access not restricted!",
    unlock := fun _ => .ok "Unlocked!", latency := fun _ => 100,
    fromNow := fun _ => "in a while", now := 0, randIndex := 0 }

/-- C4: a request whose first text token is `help` is answered with the
help text and nothing else: no store read or write, no lock-API call, no
authorization or rate-limit stage, whatever the token and whatever the
environment (so also when the backing store is unavailable). -/
theorem C4_help_bypasses_pipeline (env : Env) (req : Request)
    (h : (splitText req.text).get? 0 = some "help") :
    handle env req = ⟨[.relay (some GetHelp)], .ok⟩ := by
  unfold handle
  rw [if_neg (splitText_length_ne_zero req.text), if_pos h]

/-- C4 witness: `help` with a wrong token against a dead store still yields
exactly the help text. -/
theorem C4_help_bypasses_pipeline_witness :
    handle envDown ⟨"help", "/speakeasy", "badtoken", "U0"⟩ =
      ⟨[.relay (some GetHelp)], .ok⟩ :=
  C4_help_bypasses_pipeline envDown ⟨"help", "/speakeasy", "badtoken", "U0"⟩ (by decide)

/-- C1: when the canonical token exists and differs from the request token
(and the request is not the upstream `help` special case), the pipeline
stops at `CheckSlackAuthToken` with the rejection message: the only effects
are the settings read and the single relayed rejection, so the users table
is never updated and the lock API is never called. -/
theorem C1_auth_mismatch_halts (env : Env) (req : Request) (ct : String)
    (hhelp : (splitText req.text).get? 0 ≠ some "help")
    (htok : env.getToken = .ok (some ct))
    (hne : ct ≠ req.token) :
    handle env req =
      ⟨[.getSettings "slack_auth_token", .relay (some authMismatchMsg)], .ok⟩
    ∧ ((handle env req).trace.all fun e => !isUsersUpdate e && !isLockApiCall e) = true := by
  have hmain : handle env req =
      ⟨[.getSettings "slack_auth_token", .relay (some authMismatchMsg)], .ok⟩ := by
    unfold handle
    rw [if_neg (splitText_length_ne_zero req.text), if_neg hhelp]
    unfold runWaterfall GetSlackAuthToken
    rw [htok]
    simp only [StageResult.andThen, StageResult.prepend, CheckSlackAuthToken, initState]
    rw [if_pos (by simp [hne])]
    simp [finishRelay, authMismatchMsg]
  refine ⟨hmain, ?_⟩
  rw [hmain]
  decide

/-- C1 witness: a concrete mismatching token is rejected with no
users-table update and no lock-API call. -/
theorem C1_auth_mismatch_halts_witness :
    handle { envDown with getToken := .ok (some "tok") } ⟨"status", "/speakeasy", "wrong", "U0"⟩ =
      ⟨[.getSettings "slack_auth_token", .relay (some authMismatchMsg)], .ok⟩
    ∧ ((handle { envDown with getToken := .ok (some "tok") }
        ⟨"status", "/speakeasy", "wrong", "U0"⟩).trace.all
          fun e => !isUsersUpdate e && !isLockApiCall e) = true :=
  C1_auth_mismatch_halts { envDown with getToken := .ok (some "tok") }
    ⟨"status", "/speakeasy", "wrong", "U0"⟩ "tok" (by decide) rfl (by decide)

/-- C3: a user whose stored attempts contain at least 3 qualifying
operations inside the trailing 60 seconds, with rate limiting not disabled,
is answered with exactly the configured rate-limit message, and no attempt
is recorded: the trace holds no users-table write at all, so the stored
attempts list is untouched by the blocked request. -/
theorem C3_rate_limited_blocks (env : Env) (req : Request) (u : UserRec) (l : List Attempt)
    (hhelp : (splitText req.text).get? 0 ≠ some "help")
    (htok : env.getToken = .ok (some req.token))
    (huser : env.getUser = .ok (some u))
    (hen : u.enabled = true)
    (hdis : u.disableRateLimiting = false)
    (hatt : u.attempts = some l)
    (hcnt : 3 ≤ (l.filter (isRecentQualifying env.now)).length) :
    handle env req =
      ⟨[.getSettings "slack_auth_token", .getUser req.user_id,
        .relay (some rateLimitMsg)], .ok⟩
    ∧ ((handle env req).trace.all fun e => !isUsersUpdate e) = true := by
  have hlen : ¬(l.length < 3) := by
    have := List.length_filter_le (isRecentQualifying env.now) l
    omega
  have hblock : rateLimitBlocked env.now u = true := by
    unfold rateLimitBlocked
    rw [hatt, hdis]
    simp [hlen, hcnt]
  have hmain : handle env req =
      ⟨[.getSettings "slack_auth_token", .getUser req.user_id,
        .relay (some rateLimitMsg)], .ok⟩ := by
    unfold handle
    rw [if_neg (splitText_length_ne_zero req.text), if_neg hhelp]
    simp only [runWaterfall, GetSlackAuthToken, GetCallingUser, CheckCallingUser,
      CheckSlackAuthToken, initState, StageResult.andThen, StageResult.prepend,
      htok, huser, hen, hblock, finishRelay]
    simp [finishRelay, rateLimitMsg]
  refine ⟨hmain, ?_⟩
  rw [hmain]
  simp [isUsersUpdate]

/-- A user with three fresh qualifying attempts, for the C3 witness. -/
def userThrottled : UserRec :=
  ⟨"U1", true, some [⟨90, "status"⟩, ⟨80, "unlock"⟩, ⟨70, "checkout"⟩], false, none⟩

/-- Environment in which `userThrottled` is the caller and the clock reads
100, for the C3 witness. -/
def envThrottled : Env :=
  { envDown with
    getToken := .ok (some "t"),
    now := 100,
    getUser := .ok (some userThrottled) }

/-- C3 witness: three qualifying attempts in the last minute block a
concrete request with the configured message and write nothing. -/
theorem C3_rate_limited_blocks_witness :
    handle envThrottled ⟨"status", "/speakeasy", "t", "U1"⟩ =
      ⟨[.getSettings "slack_auth_token", .getUser "U1",
        .relay (some rateLimitMsg)], .ok⟩
    ∧ ((handle envThrottled ⟨"status", "/speakeasy", "t", "U1"⟩).trace.all
        fun e => !isUsersUpdate e) = true :=
  C3_rate_limited_blocks envThrottled ⟨"status", "/speakeasy", "t", "U1"⟩
    userThrottled [⟨90, "status"⟩, ⟨80, "unlock"⟩, ⟨70, "checkout"⟩]
    (by decide) rfl rfl rfl rfl rfl (by decide)

/-- C10: the attempt-recording stage writes exactly
`newAttempts now command previous`, whose first element is the fresh
`{timestamp, operation}` pair and whose length never exceeds 5, for every
previous list including a missing one. -/
theorem C10_attempts_bounded (env : Env) (st : PState) (u : UserRec)
    (hu : st.user = some u)
    (hup : env.updateAttemptsResult = none) :
    RegisterUserAttempt env st =
      .ok [.updateAttempts u.id (newAttempts env.now st.command u.attempts)] st
    ∧ (newAttempts env.now st.command u.attempts).head? = some ⟨env.now, st.command⟩
    ∧ (newAttempts env.now st.command u.attempts).length ≤ 5 := by
  refine ⟨?_, ?_, ?_⟩
  · simp only [RegisterUserAttempt, hu, hup]
  · unfold newAttempts
    by_cases h : 5 < (u.attempts.getD []).length + 1
    · simp [h]
    · simp [h]
  · unfold newAttempts
    by_cases h : 5 < (u.attempts.getD []).length + 1
    · simp [h, List.length_take]
    · simp [h]
      omega

/-- C10 witness: recording on top of a full 5-entry history keeps the list
at 5 with the new entry first. -/
theorem C10_attempts_bounded_witness :
    RegisterUserAttempt { envDown with updateAttemptsResult := none, now := 50 }
      { args := ["x"], command := "status", token := "t", userId := "U1",
        canonicalToken := some "t",
        user := some ⟨"U1", true,
          some [⟨9, "a"⟩, ⟨8, "b"⟩, ⟨7, "c"⟩, ⟨6, "d"⟩, ⟨5, "e"⟩], false, none⟩,
        logins := none, headers := none } =
      .ok [.updateAttempts "U1" (newAttempts 50 "status"
        (some [⟨9, "a"⟩, ⟨8, "b"⟩, ⟨7, "c"⟩, ⟨6, "d"⟩, ⟨5, "e"⟩]))]
        { args := ["x"], command := "status", token := "t", userId := "U1",
          canonicalToken := some "t",
          user := some ⟨"U1", true,
            some [⟨9, "a"⟩, ⟨8, "b"⟩, ⟨7, "c"⟩, ⟨6, "d"⟩, ⟨5, "e"⟩], false, none⟩,
          logins := none, headers := none }
    ∧ (newAttempts 50 "status"
        (some [⟨9, "a"⟩, ⟨8, "b"⟩, ⟨7, "c"⟩, ⟨6, "d"⟩, ⟨5, "e"⟩])).head? =
        some ⟨50, "status"⟩
    ∧ (newAttempts 50 "status"
        (some [⟨9, "a"⟩, ⟨8, "b"⟩, ⟨7, "c"⟩, ⟨6, "d"⟩, ⟨5, "e"⟩])).length ≤ 5 :=
  C10_attempts_bounded _ _
    ⟨"U1", true, some [⟨9, "a"⟩, ⟨8, "b"⟩, ⟨7, "c"⟩, ⟨6, "d"⟩, ⟨5, "e"⟩], false, none⟩
    rfl rfl

/-- C5: a checkout request arriving when the number of records with an
unexpired pass already reached `N_PASSES` relays the capacity message, and
the trace contains no `expires` write, so the caller's pass-expiry field
is untouched (the only users-table write is the attempt bookkeeping that
precedes dispatch). -/
theorem C5_capacity_blocks_checkout (env : Env) (req : Request) (u : UserRec)
    (ls : List LoginCred) (allUsers : List UserRec) (secret : String)
    (hhelp : (splitText req.text).get? 0 ≠ some "help")
    (hcmd : req.command = "checkout")
    (htok : env.getToken = .ok (some req.token))
    (huser : env.getUser = .ok (some u))
    (hen : u.enabled = true)
    (hrl : rateLimitBlocked env.now u = false)
    (hupd : env.updateAttemptsResult = none)
    (hlog : env.getLogins = .ok (some ls))
    (hlne : ls ≠ [])
    (hsign : env.signIn = .ok secret)
    (hscan : env.scanUsers = .ok allUsers)
    (hcap : N_PASSES ≤ (allUsers.filter (hasActivePass env.now)).length) :
    handle env req =
      ⟨[.getSettings "slack_auth_token", .getUser req.user_id,
        .updateAttempts u.id (newAttempts env.now req.command u.attempts),
        .getSettings "logins", .signIn, .scanUsers,
        .relay (some capacityMsg)], .ok⟩
    ∧ ((handle env req).trace.all fun e => !isExpiresUpdate e) = true := by
  have hidx : env.randIndex % ls.length < ls.length :=
    Nat.mod_lt _ (List.length_pos.mpr hlne)
  have hc : ls.get? (env.randIndex % ls.length) = some (ls.get ⟨_, hidx⟩) := by
    rw [List.get?_eq_getElem?]
    exact List.getElem?_eq_getElem hidx
  have hmain : handle env req =
      ⟨[.getSettings "slack_auth_token", .getUser req.user_id,
        .updateAttempts u.id (newAttempts env.now req.command u.attempts),
        .getSettings "logins", .signIn, .scanUsers,
        .relay (some capacityMsg)], .ok⟩ := by
    unfold handle
    rw [if_neg (splitText_length_ne_zero req.text), if_neg hhelp]
    simp only [runWaterfall, GetSlackAuthToken, CheckSlackAuthToken, GetCallingUser,
      CheckCallingUser, RegisterUserAttempt, GetLogins, Login, GetDispatchHandler,
      CheckoutHandler, initState, StageResult.andThen, StageResult.prepend,
      htok, huser, hen, hrl, hupd, hlog, hsign, hscan, hcmd, hc, hcap, finishRelay]
    simp [capacityMsg, hcap]
  refine ⟨hmain, ?_⟩
  rw [hmain]
  simp [isExpiresUpdate]

/-- Ten users each holding an active pass, for the C5 witness. -/
def tenPassHolders : List UserRec :=
  (List.range 10).map (fun i => ⟨toString i, true, none, false, some 5000⟩)

/-- Environment at full pass capacity, for the C5 witness. -/
def envFull : Env :=
  { envGood with scanUsers := .ok tenPassHolders }

/-- C5 witness: the tenth concurrent pass blocks a concrete checkout and
leaves `expires` unwritten. -/
theorem C5_capacity_blocks_checkout_witness :
    handle envFull ⟨"checkout", "checkout", "tok", "U1"⟩ =
      ⟨[.getSettings "slack_auth_token", .getUser "U1",
        .updateAttempts "U1" (newAttempts 0 "checkout" none),
        .getSettings "logins", .signIn, .scanUsers,
        .relay (some capacityMsg)], .ok⟩
    ∧ ((handle envFull ⟨"checkout", "checkout", "tok", "U1"⟩).trace.all
        fun e => !isExpiresUpdate e) = true :=
  C5_capacity_blocks_checkout envFull ⟨"checkout", "checkout", "tok", "U1"⟩
    ⟨"U1", true, none, false, some 100000⟩ [⟨"alice", "pw"⟩] tenPassHolders "secret"
    (by decide) rfl rfl rfl rfl rfl rfl rfl (by decide) rfl rfl (by decide)

/-- C2 evidence: the dispatcher switches on `state.command` (the slash
command field, `/speakeasy` for every request routed through the apigproxy
lambda), not on the first whitespace token of the command text.  In a fully
healthy environment a request whose text is `status` is answered with the
unknown-command message, although its first text token is `status`, which
the help text documents as a valid command. -/
theorem C2_dispatch_ignores_text_token :
    (splitText "status").get? 0 = some "status"
    ∧ relaysOf (handle envGood ⟨"status", "/speakeasy", "tok", "U1"⟩).trace =
        [some unknownCommandMsg] := by
  decide

/-- C9 (amended): when the `logins` settings record is missing, the login
stage fails with the credentials-unavailable message and no lock-API call
is made; when the record exists but the pool list is empty, the handler
instead dies on an unhandled exception (`login.username` of `undefined`) —
still without a sign-in call, but also without any user-facing message. -/
theorem C9_credentials_unavailable (env : Env) (req : Request) (u : UserRec)
    (hhelp : (splitText req.text).get? 0 ≠ some "help")
    (htok : env.getToken = .ok (some req.token))
    (huser : env.getUser = .ok (some u))
    (hen : u.enabled = true)
    (hrl : rateLimitBlocked env.now u = false)
    (hupd : env.updateAttemptsResult = none) :
    (env.getLogins = .ok none →
      handle env req =
        ⟨[.getSettings "slack_auth_token", .getUser req.user_id,
          .updateAttempts u.id (newAttempts env.now req.command u.attempts),
          .getSettings "logins", .relay (some loginsMissingMsg)], .ok⟩)
    ∧ (env.getLogins = .ok (some []) →
      handle env req =
        ⟨[.getSettings "slack_auth_token", .getUser req.user_id,
          .updateAttempts u.id (newAttempts env.now req.command u.attempts),
          .getSettings "logins"], .crashed⟩) := by
  constructor
  · intro hlog
    unfold handle
    rw [if_neg (splitText_length_ne_zero req.text), if_neg hhelp]
    simp only [runWaterfall, GetSlackAuthToken, CheckSlackAuthToken, GetCallingUser,
      CheckCallingUser, RegisterUserAttempt, GetLogins, Login, initState,
      StageResult.andThen, StageResult.prepend,
      htok, huser, hen, hrl, hupd, hlog, finishRelay]
    simp [loginsMissingMsg]
  · intro hlog
    unfold handle
    rw [if_neg (splitText_length_ne_zero req.text), if_neg hhelp]
    simp only [runWaterfall, GetSlackAuthToken, CheckSlackAuthToken, GetCallingUser,
      CheckCallingUser, RegisterUserAttempt, GetLogins, Login, initState,
      StageResult.andThen, StageResult.prepend,
      htok, huser, hen, hrl, hupd, hlog, finishRelay]
    simp

/-- Environment whose `logins` settings record is absent. -/
def envNoLogins : Env :=
  { envGood with getLogins := .ok none }

/-- Environment whose credential pool exists but is empty. -/
def envEmptyPool : Env :=
  { envGood with getLogins := .ok (some []) }

/-- C9 counterexample to the claim as stated: with an existing but empty
credential pool the request crashes with no relayed message at all — in
particular the credentials-unavailable message is never delivered — though
no sign-in call is attempted either. -/
theorem C9_empty_pool_crashes :
    (handle envEmptyPool ⟨"zzz", "status", "tok", "U1"⟩).outcome = .crashed
    ∧ relaysOf (handle envEmptyPool ⟨"zzz", "status", "tok", "U1"⟩).trace = []
    ∧ ((handle envEmptyPool ⟨"zzz", "status", "tok", "U1"⟩).trace.all
        fun e => !isLockApiCall e) = true := by
  decide

/-- C9 witness: both branches of the amended statement at concrete
inputs. -/
theorem C9_credentials_unavailable_witness :
    handle envNoLogins ⟨"zzz", "status", "tok", "U1"⟩ =
      ⟨[.getSettings "slack_auth_token", .getUser "U1",
        .updateAttempts "U1" (newAttempts 0 "status" none),
        .getSettings "logins", .relay (some loginsMissingMsg)], .ok⟩
    ∧ handle envEmptyPool ⟨"zzz", "status", "tok", "U1"⟩ =
      ⟨[.getSettings "slack_auth_token", .getUser "U1",
        .updateAttempts "U1" (newAttempts 0 "status" none),
        .getSettings "logins"], .crashed⟩ :=
  ⟨(C9_credentials_unavailable envNoLogins ⟨"zzz", "status", "tok", "U1"⟩ goodUser
      (by decide) rfl rfl rfl rfl rfl).1 rfl,
   (C9_credentials_unavailable envEmptyPool ⟨"zzz", "status", "tok", "U1"⟩ goodUser
      (by decide) rfl rfl rfl rfl rfl).2 rfl⟩

/-- The outer west door, first element of the `bw` expansion. -/
def bwOuter : Door := ⟨"Brip West Outer", "bwo", "3768"⟩

/-- The inner west door, second element of the `bw` expansion. -/
def bwInner : Door := ⟨"Brip West Inner", "bwi", "3766"⟩

/-- The compound timeline: the outer unlock fires at 10ms, its result is
relayed on completion, the inner unlock fires at 10000ms (9990ms after the
outer call, the configured stagger), and its result is relayed on
completion — provided the outer call completes before the second timer
fires. -/
theorem unlockTimeline_bw (env : Env) (hlat : env.latency "3768" ≤ 9990) :
    unlockTimeline env [bwOuter, bwInner] =
      [ ⟨10, .unlock "3768"⟩,
        ⟨10 + env.latency "3768",
          .relay (some ("Brip West Outer: " ++ unlockMessage env bwOuter))⟩,
        ⟨10000, .unlock "3766"⟩,
        ⟨10000 + env.latency "3766",
          .relay (some ("Brip West Inner: " ++ unlockMessage env bwInner))⟩ ] := by
  have h1 : 10 + env.latency "3768" ≤ 10000 := by omega
  simp [unlockTimeline, doorUnlockStream, mergeEvents, mergeEventsFuel, bwOuter, bwInner,
    h1, List.enum, List.enumFrom]

/-- C6: an unlock request whose door key is `bw` issues exactly the two
unlock calls, outer (`3768`) at 10ms then inner (`3766`) at 10000ms —
9990ms (the configured ≈10-second stagger) after the first — and each
door's result is relayed as its own message at its completion time, in
outer-then-inner order.  The statement holds for arbitrary per-door unlock
results, so a failure on either door leaves the other call and both relays
in place. -/
theorem C6_compound_unlock_staggered (env : Env) (st : PState) (u : UserRec)
    (exp : Int) (rest : List String)
    (hargs : st.args = "bw" :: rest)
    (hu : st.user = some u)
    (hexp : u.expires = some exp)
    (hvalid : ¬ exp < env.now)
    (hlat : env.latency "3768" ≤ 9990) :
    UnlockHandler env st =
      .ok ((unlockTimeline env [bwOuter, bwInner]).map TimedEvent.ev) none
    ∧ unlockTimeline env [bwOuter, bwInner] =
      [ ⟨10, .unlock "3768"⟩,
        ⟨10 + env.latency "3768",
          .relay (some ("Brip West Outer: " ++ unlockMessage env bwOuter))⟩,
        ⟨10000, .unlock "3766"⟩,
        ⟨10000 + env.latency "3766",
          .relay (some ("Brip West Inner: " ++ unlockMessage env bwInner))⟩ ] := by
  refine ⟨?_, unlockTimeline_bw env hlat⟩
  unfold UnlockHandler
  rw [if_neg (by simp [hargs])]
  simp only [hargs, hu, hexp]
  simp [DOOR_CODES, allSome, bwOuter, bwInner, List.find?, hvalid]

/-- The state reaching the unlock handler in C6's witness. -/
def stateBw : PState :=
  { args := ["bw"], command := "unlock", token := "tok", userId := "U1",
    canonicalToken := some "tok", user := some goodUser,
    logins := some [⟨"alice", "pw"⟩], headers := some "secret" }

/-- C6 witness: the staggered double unlock at a concrete environment. -/
theorem C6_compound_unlock_staggered_witness :
    UnlockHandler envGood stateBw =
      .ok ((unlockTimeline envGood [bwOuter, bwInner]).map TimedEvent.ev) none
    ∧ unlockTimeline envGood [bwOuter, bwInner] =
      [ ⟨10, .unlock "3768"⟩,
        ⟨10 + envGood.latency "3768",
          .relay (some ("Brip West Outer: " ++ unlockMessage envGood bwOuter))⟩,
        ⟨10000, .unlock "3766"⟩,
        ⟨10000 + envGood.latency "3766",
          .relay (some ("Brip West Inner: " ++ unlockMessage envGood bwInner))⟩ ] :=
  C6_compound_unlock_staggered envGood stateBw goodUser 100000 []
    rfl rfl rfl (by decide) (by decide)

theorem foldlSet_length (f : Nat → α) (order : List Nat) (acc : List α) :
    (order.foldl (fun a i => a.set i (f i)) acc).length = acc.length := by
  induction order generalizing acc with
  | nil => rfl
  | cons i order ih =>
      simp only [List.foldl_cons]
      rw [ih, List.length_set]

theorem foldlSet_getElem?_not_mem (f : Nat → α) (order : List Nat) (acc : List α)
    (j : Nat) (hj : j ∉ order) :
    (order.foldl (fun a i => a.set i (f i)) acc)[j]? = acc[j]? := by
  induction order generalizing acc with
  | nil => rfl
  | cons i order ih =>
      simp only [List.foldl_cons]
      rw [ih _ (fun h => hj (List.mem_cons_of_mem i h))]
      apply List.getElem?_set_ne
      intro h
      subst h
      exact hj (List.mem_cons_self i order)

theorem foldlSet_getElem?_mem (f : Nat → α) (order : List Nat) :
    ∀ (acc : List α) (j : Nat), j < acc.length → j ∈ order →
      (order.foldl (fun a i => a.set i (f i)) acc)[j]? = some (f j) := by
  induction order with
  | nil =>
      intro acc j hlen hj
      cases hj
  | cons i order ih =>
      intro acc j hlen hj
      simp only [List.foldl_cons]
      by_cases hmem : j ∈ order
      · exact ih _ j (by simpa [List.length_set] using hlen) hmem
      · have hji : j = i := by
          rcases List.mem_cons.mp hj with h | h
          · exact h
          · exact absurd h hmem
        subst hji
        rw [foldlSet_getElem?_not_mem f order _ j hmem]
        exact List.getElem?_set_self hlen

/-- `async.map` semantics: writing each iteratee result at its own index
produces the in-order result list no matter in which order the calls
complete, as long as every index eventually completes. -/
theorem assembleByIndex_eq_map (n : Nat) (f : Nat → α) (order : List Nat) (d : α)
    (hcover : ∀ i, i < n → i ∈ order) :
    assembleByIndex n f order d = (List.range n).map f := by
  apply List.ext_getElem?
  intro j
  by_cases hj : j < n
  · unfold assembleByIndex
    rw [foldlSet_getElem?_mem f order _ j (by simpa using hj) (hcover j hj)]
    rw [List.getElem?_map, List.getElem?_range hj]
    rfl
  · have h1 : (assembleByIndex n f order d).length = n := by
      unfold assembleByIndex
      rw [foldlSet_length, List.length_replicate]
    rw [List.getElem?_eq_none (by omega : (assembleByIndex n f order d).length ≤ j)]
    rw [List.getElem?_eq_none (by simp [List.length_range]; omega)]

/-- The per-door status line seen at the door's catalog index. -/
def doorResults (env : Env) (i : Nat) : String :=
  ((DOOR_CODES.get? i).map (GetDoorStatus env)).getD ""

theorem rangeMap_doorResults (env : Env) :
    (List.range DOOR_CODES.length).map (doorResults env) =
      DOOR_CODES.map (GetDoorStatus env) := by
  apply List.ext_getElem?
  intro j
  rcases j with _ | _ | _ | _ | _ | m <;> rfl

/-- C7: the status response's per-door lines are assembled at their catalog
index, so any completion order covering every door yields the catalog-order
line list; a transport failure for one door turns only that door's line
into the warning line; and the handler still completes with a single
aggregate message. -/
theorem C7_status_order_preserved (env : Env) (st : PState) (u : UserRec)
    (allUsers : List UserRec) (order : List Nat) (j : Nat) (d : Door) (e : String)
    (horder : ∀ i, i < DOOR_CODES.length → i ∈ order)
    (hu : st.user = some u)
    (hscan : env.scanUsers = .ok allUsers)
    (hj : DOOR_CODES.get? j = some d)
    (hpeek : env.peek d.code = .error e) :
    assembleByIndex DOOR_CODES.length (doorResults env) order "" =
      DOOR_CODES.map (GetDoorStatus env)
    ∧ (DOOR_CODES.map (GetDoorStatus env)).get? j =
        some (":warning: " ++ d.name ++ " [`" ++ d.key ++ "`]: `A bad error occurred.`")
    ∧ ∃ m, StatusHandler env st =
        .ok ((DOOR_CODES.map fun dd => Effect.peek dd.code) ++ [.scanUsers]) (some m) := by
  refine ⟨?_, ?_, ?_⟩
  · rw [assembleByIndex_eq_map _ _ _ _ horder, rangeMap_doorResults]
  · rw [List.get?_eq_getElem?, List.getElem?_map, ← List.get?_eq_getElem?, hj]
    simp [GetDoorStatus, hpeek]
  · simp only [StatusHandler, hscan, hu]
    cases u.expires with
    | none => exact ⟨_, rfl⟩
    | some userExpires =>
        dsimp only
        by_cases hlt : userExpires < env.now
        · rw [if_pos hlt]
          exact ⟨_, rfl⟩
        · rw [if_neg hlt]
          exact ⟨_, rfl⟩

/-- Environment in which exactly the parking-lot door's peek fails, for the
C7 witness. -/
def envOneDoorDown : Env :=
  { envGood with
    peek := fun c => if c = "3767" then .error "timeout" else .ok "Access not restricted!" }

/-- C7 witness: a concrete out-of-order completion still yields the
catalog-order lines, with a warning line only for the failing door. -/
theorem C7_status_order_preserved_witness :
    assembleByIndex DOOR_CODES.length (doorResults envOneDoorDown) [3, 1, 4, 0, 2] "" =
      DOOR_CODES.map (GetDoorStatus envOneDoorDown)
    ∧ (DOOR_CODES.map (GetDoorStatus envOneDoorDown)).get? 2 =
        some (":warning: " ++ "Brip Parking Lot" ++ " [`" ++ "bs" ++ "`]: `A bad error occurred.`")
    ∧ ∃ m, StatusHandler envOneDoorDown stateBw =
        .ok ((DOOR_CODES.map fun dd => Effect.peek dd.code) ++ [.scanUsers]) (some m) :=
  C7_status_order_preserved envOneDoorDown stateBw goodUser [] [3, 1, 4, 0, 2] 2
    ⟨"Brip Parking Lot", "bs", "3767"⟩ "timeout"
    (by decide) rfl rfl (by decide) rfl

theorem relaysOf_append (a b : List Effect) :
    relaysOf (a ++ b) = relaysOf a ++ relaysOf b :=
  List.filterMap_append a b _

theorem relaysOf_andThen {α β : Type} (r : StageResult α) (f : α → StageResult β)
    (P : α → Prop)
    (hr : relaysOf r.trace = [])
    (hP : ∀ t s, r = .ok t s → P s)
    (hf : ∀ s, P s → relaysOf (f s).trace = []) :
    relaysOf (r.andThen f).trace = [] := by
  cases r with
  | ok t a =>
      have hfa := hf a (hP t a rfl)
      simp only [StageResult.trace] at hr
      show relaysOf (StageResult.prepend t (f a)).trace = []
      cases hc : f a with
      | ok t2 b =>
          rw [hc] at hfa
          simp only [StageResult.trace] at hfa
          simp only [StageResult.prepend, StageResult.trace, relaysOf_append, hr, hfa,
            List.append_nil]
      | fail t2 m =>
          rw [hc] at hfa
          simp only [StageResult.trace] at hfa
          simp only [StageResult.prepend, StageResult.trace, relaysOf_append, hr, hfa,
            List.append_nil]
      | crash t2 =>
          rw [hc] at hfa
          simp only [StageResult.trace] at hfa
          simp only [StageResult.prepend, StageResult.trace, relaysOf_append, hr, hfa,
            List.append_nil]
  | fail t m => exact hr
  | crash t => exact hr

theorem GetSlackAuthToken_relayFree (env : Env) (st : PState) :
    relaysOf (GetSlackAuthToken env st).trace = [] := by
  unfold GetSlackAuthToken
  cases env.getToken with
  | error e => rfl
  | ok o => cases o <;> rfl

theorem GetSlackAuthToken_preserves (env : Env) (st : PState) :
    ∀ t s, GetSlackAuthToken env st = .ok t s → s.command = st.command := by
  intro t s h
  unfold GetSlackAuthToken at h
  cases henv : env.getToken with
  | error e => rw [henv] at h; cases h
  | ok o =>
      cases o with
      | none => rw [henv] at h; cases h
      | some v => rw [henv] at h; cases h; rfl

theorem CheckSlackAuthToken_relayFree (st : PState) :
    relaysOf (CheckSlackAuthToken st).trace = [] := by
  unfold CheckSlackAuthToken
  split <;> rfl

theorem CheckSlackAuthToken_preserves (st : PState) :
    ∀ t s, CheckSlackAuthToken st = .ok t s → s.command = st.command := by
  intro t s h
  unfold CheckSlackAuthToken at h
  split at h
  · cases h
  · cases h; rfl

theorem GetCallingUser_relayFree (env : Env) (st : PState) :
    relaysOf (GetCallingUser env st).trace = [] := by
  unfold GetCallingUser
  cases env.getUser with
  | error e => rfl
  | ok o => cases o <;> rfl

theorem GetCallingUser_preserves (env : Env) (st : PState) :
    ∀ t s, GetCallingUser env st = .ok t s → s.command = st.command := by
  intro t s h
  unfold GetCallingUser at h
  cases henv : env.getUser with
  | error e => rw [henv] at h; cases h
  | ok o =>
      cases o with
      | none => rw [henv] at h; cases h
      | some v => rw [henv] at h; cases h; rfl

theorem CheckCallingUser_relayFree (env : Env) (st : PState) :
    relaysOf (CheckCallingUser env st).trace = [] := by
  unfold CheckCallingUser
  cases st.user with
  | none => rfl
  | some u =>
      dsimp only
      split
      · rfl
      · split <;> rfl

theorem CheckCallingUser_preserves (env : Env) (st : PState) :
    ∀ t s, CheckCallingUser env st = .ok t s → s.command = st.command := by
  intro t s h
  unfold CheckCallingUser at h
  cases hu : st.user with
  | none => rw [hu] at h; cases h
  | some u =>
      rw [hu] at h
      dsimp only at h
      split at h
      · cases h
      · split at h
        · cases h
        · cases h; rfl

theorem RegisterUserAttempt_relayFree (env : Env) (st : PState) :
    relaysOf (RegisterUserAttempt env st).trace = [] := by
  unfold RegisterUserAttempt
  cases st.user with
  | none => rfl
  | some u =>
      dsimp only
      cases env.updateAttemptsResult <;> rfl

theorem RegisterUserAttempt_preserves (env : Env) (st : PState) :
    ∀ t s, RegisterUserAttempt env st = .ok t s → s.command = st.command := by
  intro t s h
  unfold RegisterUserAttempt at h
  cases hu : st.user with
  | none => rw [hu] at h; cases h
  | some u =>
      rw [hu] at h
      dsimp only at h
      cases hup : env.updateAttemptsResult with
      | none => rw [hup] at h; cases h; rfl
      | some e => rw [hup] at h; cases h

theorem GetLogins_relayFree (env : Env) (st : PState) :
    relaysOf (GetLogins env st).trace = [] := by
  unfold GetLogins
  cases env.getLogins with
  | error e => rfl
  | ok o => cases o <;> rfl

theorem GetLogins_preserves (env : Env) (st : PState) :
    ∀ t s, GetLogins env st = .ok t s → s.command = st.command := by
  intro t s h
  unfold GetLogins at h
  cases henv : env.getLogins with
  | error e => rw [henv] at h; cases h
  | ok o =>
      cases o with
      | none => rw [henv] at h; cases h
      | some v => rw [henv] at h; cases h; rfl

theorem Login_relayFree (env : Env) (st : PState) :
    relaysOf (Login env st).trace = [] := by
  unfold Login
  cases st.logins with
  | none => rfl
  | some l =>
      dsimp only
      cases l.get? (env.randIndex % l.length) with
      | none => rfl
      | some c =>
          dsimp only
          cases env.signIn <;> rfl

theorem Login_preserves (env : Env) (st : PState) :
    ∀ t s, Login env st = .ok t s → s.command = st.command := by
  intro t s h
  unfold Login at h
  cases hl : st.logins with
  | none => rw [hl] at h; cases h
  | some l =>
      rw [hl] at h
      dsimp only at h
      cases hg : l.get? (env.randIndex % l.length) with
      | none => rw [hg] at h; cases h
      | some c =>
          rw [hg] at h
          dsimp only at h
          cases hs : env.signIn with
          | error e => rw [hs] at h; cases h
          | ok v => rw [hs] at h; cases h; rfl

theorem StatusHandler_relayFree (env : Env) (st : PState) :
    relaysOf (StatusHandler env st).trace = [] := by
  unfold StatusHandler
  cases env.scanUsers with
  | error e => rfl
  | ok allUsers =>
      dsimp only
      cases st.user with
      | none => rfl
      | some u =>
          dsimp only
          cases u.expires with
          | none => rfl
          | some x =>
              dsimp only
              split <;> rfl

theorem CheckoutHandler_relayFree (env : Env) (st : PState) :
    relaysOf (CheckoutHandler env st).trace = [] := by
  unfold CheckoutHandler
  cases env.scanUsers with
  | error e => rfl
  | ok allUsers =>
      dsimp only
      split
      · rfl
      · cases st.user with
        | none => rfl
        | some u =>
            dsimp only
            cases env.updateExpiresResult <;> rfl

theorem GetDispatchHandler_relayFree (env : Env) (st : PState)
    (h1 : st.command ≠ "unlock") (h2 : st.command ≠ "open") :
    relaysOf (GetDispatchHandler env st).trace = [] := by
  unfold GetDispatchHandler
  by_cases hs : st.command = "status"
  · rw [if_pos hs]
    exact StatusHandler_relayFree env st
  · rw [if_neg hs]
    by_cases hc : st.command = "checkout"
    · rw [if_pos hc]
      exact CheckoutHandler_relayFree env st
    · rw [if_neg hc, if_neg (by tauto)]
      rfl

/-- Every pre-dispatch stage is relay-free and the dispatcher itself is
relay-free for non-unlock commands, so the whole waterfall relays nothing:
its single user-visible message is added only by the completion callback. -/
theorem runWaterfall_relayFree (env : Env) (st : PState)
    (h1 : st.command ≠ "unlock") (h2 : st.command ≠ "open") :
    relaysOf (runWaterfall env st).trace = [] := by
  unfold runWaterfall
  refine relaysOf_andThen _ _ (fun s => s.command = st.command)
    (GetSlackAuthToken_relayFree env st) (GetSlackAuthToken_preserves env st) ?_
  intro s1 hs1
  refine relaysOf_andThen _ _ (fun s => s.command = st.command)
    (CheckSlackAuthToken_relayFree s1)
    (fun t s h => (CheckSlackAuthToken_preserves s1 t s h).trans hs1) ?_
  intro s2 hs2
  refine relaysOf_andThen _ _ (fun s => s.command = st.command)
    (GetCallingUser_relayFree env s2)
    (fun t s h => (GetCallingUser_preserves env s2 t s h).trans hs2) ?_
  intro s3 hs3
  refine relaysOf_andThen _ _ (fun s => s.command = st.command)
    (CheckCallingUser_relayFree env s3)
    (fun t s h => (CheckCallingUser_preserves env s3 t s h).trans hs3) ?_
  intro s4 hs4
  refine relaysOf_andThen _ _ (fun s => s.command = st.command)
    (RegisterUserAttempt_relayFree env s4)
    (fun t s h => (RegisterUserAttempt_preserves env s4 t s h).trans hs4) ?_
  intro s5 hs5
  refine relaysOf_andThen _ _ (fun s => s.command = st.command)
    (GetLogins_relayFree env s5)
    (fun t s h => (GetLogins_preserves env s5 t s h).trans hs5) ?_
  intro s6 hs6
  refine relaysOf_andThen _ _ (fun s => s.command = st.command)
    (Login_relayFree env s6)
    (fun t s h => (Login_preserves env s6 t s h).trans hs6) ?_
  intro s7 hs7
  exact GetDispatchHandler_relayFree env s7 (by rw [hs7]; exact h1) (by rw [hs7]; exact h2)

/-- The lock codes of the unlock calls of a trace, in call order. -/
def unlocksOf (t : List Effect) : List String :=
  t.filterMap (fun e => match e with | .unlock c => some c | _ => none)

theorem unlocksOf_append (a b : List Effect) :
    unlocksOf (a ++ b) = unlocksOf a ++ unlocksOf b :=
  List.filterMap_append a b _

/-- Whether an effect is a relayed message. -/
def isRelayEffect : Effect → Bool
  | .relay _ => true
  | _ => false

/-- Whether an effect is an unlock call. -/
def isUnlockEffect : Effect → Bool
  | .unlock _ => true
  | _ => false

theorem length_relaysOf_eq_countP (t : List Effect) :
    (relaysOf t).length = t.countP isRelayEffect := by
  induction t with
  | nil => rfl
  | cons e t ih =>
      have ih2 : (List.filterMap
          (fun e => match e with | Effect.relay m => some m | _ => none) t).length =
          List.countP isRelayEffect t := ih
      cases e <;>
        simp [relaysOf, isRelayEffect, List.countP_cons, List.filterMap_cons, ih2]

theorem length_unlocksOf_eq_countP (t : List Effect) :
    (unlocksOf t).length = t.countP isUnlockEffect := by
  induction t with
  | nil => rfl
  | cons e t ih =>
      have ih2 : (List.filterMap
          (fun e => match e with | Effect.unlock c => some c | _ => none) t).length =
          List.countP isUnlockEffect t := ih
      cases e <;>
        simp [unlocksOf, isUnlockEffect, List.countP_cons, List.filterMap_cons, ih2]

theorem GetSlackAuthToken_unlockFree (env : Env) (st : PState) :
    unlocksOf (GetSlackAuthToken env st).trace = [] := by
  unfold GetSlackAuthToken
  cases env.getToken with
  | error e => rfl
  | ok o => cases o <;> rfl

theorem CheckSlackAuthToken_unlockFree (st : PState) :
    unlocksOf (CheckSlackAuthToken st).trace = [] := by
  unfold CheckSlackAuthToken
  split <;> rfl

theorem GetCallingUser_unlockFree (env : Env) (st : PState) :
    unlocksOf (GetCallingUser env st).trace = [] := by
  unfold GetCallingUser
  cases env.getUser with
  | error e => rfl
  | ok o => cases o <;> rfl

theorem CheckCallingUser_unlockFree (env : Env) (st : PState) :
    unlocksOf (CheckCallingUser env st).trace = [] := by
  unfold CheckCallingUser
  cases st.user with
  | none => rfl
  | some u =>
      dsimp only
      split
      · rfl
      · split <;> rfl

theorem RegisterUserAttempt_unlockFree (env : Env) (st : PState) :
    unlocksOf (RegisterUserAttempt env st).trace = [] := by
  unfold RegisterUserAttempt
  cases st.user with
  | none => rfl
  | some u =>
      dsimp only
      cases env.updateAttemptsResult <;> rfl

theorem GetLogins_unlockFree (env : Env) (st : PState) :
    unlocksOf (GetLogins env st).trace = [] := by
  unfold GetLogins
  cases env.getLogins with
  | error e => rfl
  | ok o => cases o <;> rfl

theorem Login_unlockFree (env : Env) (st : PState) :
    unlocksOf (Login env st).trace = [] := by
  unfold Login
  cases st.logins with
  | none => rfl
  | some l =>
      dsimp only
      cases l.get? (env.randIndex % l.length) with
      | none => rfl
      | some c =>
          dsimp only
          cases env.signIn <;> rfl

theorem StatusHandler_unlockFree (env : Env) (st : PState) :
    unlocksOf (StatusHandler env st).trace = [] := by
  unfold StatusHandler
  cases env.scanUsers with
  | error e => rfl
  | ok allUsers =>
      dsimp only
      cases st.user with
      | none => rfl
      | some u =>
          dsimp only
          cases u.expires with
          | none => rfl
          | some x =>
              dsimp only
              split <;> rfl

theorem CheckoutHandler_unlockFree (env : Env) (st : PState) :
    unlocksOf (CheckoutHandler env st).trace = [] := by
  unfold CheckoutHandler
  cases env.scanUsers with
  | error e => rfl
  | ok allUsers =>
      dsimp only
      split
      · rfl
      · cases st.user with
        | none => rfl
        | some u =>
            dsimp only
            cases env.updateExpiresResult <;> rfl

/-- The fuelled merge only reorders: its output is a permutation of the two
inputs' concatenation, for every fuel value. -/
theorem mergeEventsFuel_perm :
    ∀ (n : Nat) (xs ys : List TimedEvent), (mergeEventsFuel n xs ys).Perm (xs ++ ys) := by
  intro n
  induction n with
  | zero =>
      intro xs ys
      exact List.Perm.refl _
  | succ n ih =>
      intro xs ys
      cases xs with
      | nil => simp [mergeEventsFuel]
      | cons x xs =>
          cases ys with
          | nil => simp [mergeEventsFuel]
          | cons y ys =>
              simp only [mergeEventsFuel]
              split
              · exact List.Perm.cons x (ih xs (y :: ys))
              · exact ((ih (x :: xs) ys).cons y).trans List.perm_middle.symm

theorem mergeEvents_perm (xs ys : List TimedEvent) :
    (mergeEvents xs ys).Perm (xs ++ ys) :=
  mergeEventsFuel_perm _ xs ys

theorem foldr_mergeEvents_perm (ls : List (List TimedEvent)) :
    (ls.foldr mergeEvents []).Perm ls.flatten := by
  induction ls with
  | nil => exact List.Perm.refl _
  | cons l ls ih =>
      simp only [List.foldr_cons, List.flatten_cons]
      exact (mergeEvents_perm l (ls.foldr mergeEvents [])).trans (ih.append_left l)

theorem streams_counts (env : Env) (l : List (Nat × Door)) :
    List.countP (fun te => isRelayEffect te.ev)
        ((l.map (fun p => doorUnlockStream env p.1 p.2)).flatten)
      = List.countP (fun te => isUnlockEffect te.ev)
        ((l.map (fun p => doorUnlockStream env p.1 p.2)).flatten) := by
  induction l with
  | nil => rfl
  | cons p l ih =>
      have hs1 : List.countP (fun te => isRelayEffect te.ev)
          (doorUnlockStream env p.1 p.2) = 1 := by
        simp [doorUnlockStream, List.countP_cons, isRelayEffect]
      have hs2 : List.countP (fun te => isUnlockEffect te.ev)
          (doorUnlockStream env p.1 p.2) = 1 := by
        simp [doorUnlockStream, List.countP_cons, isUnlockEffect]
      simp only [List.map_cons, List.flatten_cons, List.countP_append, ih, hs1, hs2]

/-- The unlock loop relays exactly as many messages as it makes unlock
calls: one of each per door. -/
theorem timeline_balance (env : Env) (doors : List Door) :
    (relaysOf ((unlockTimeline env doors).map TimedEvent.ev)).length =
      (unlocksOf ((unlockTimeline env doors).map TimedEvent.ev)).length := by
  rw [length_relaysOf_eq_countP, length_unlocksOf_eq_countP,
    List.countP_map, List.countP_map]
  have hperm : (unlockTimeline env doors).Perm
      ((doors.enum.map (fun p => doorUnlockStream env p.1 p.2)).flatten) :=
    foldr_mergeEvents_perm _
  rw [List.Perm.countP_eq _ hperm, List.Perm.countP_eq _ hperm]
  exact streams_counts env doors.enum

theorem UnlockHandler_balance (env : Env) (st : PState) :
    (relaysOf (UnlockHandler env st).trace).length =
      (unlocksOf (UnlockHandler env st).trace).length := by
  unfold UnlockHandler
  repeat' split
  all_goals first | rfl | exact timeline_balance env _

theorem GetDispatchHandler_balance (env : Env) (st : PState) :
    (relaysOf (GetDispatchHandler env st).trace).length =
      (unlocksOf (GetDispatchHandler env st).trace).length := by
  unfold GetDispatchHandler
  by_cases h1 : st.command = "status"
  · rw [if_pos h1, StatusHandler_relayFree, StatusHandler_unlockFree]
    rfl
  · rw [if_neg h1]
    by_cases h2 : st.command = "checkout"
    · rw [if_pos h2, CheckoutHandler_relayFree, CheckoutHandler_unlockFree]
      rfl
    · rw [if_neg h2]
      by_cases h3 : st.command = "unlock" ∨ st.command = "open"
      · rw [if_pos h3]
        exact UnlockHandler_balance env st
      · rw [if_neg h3]
        rfl

theorem balance_andThen {α β : Type} (r : StageResult α) (f : α → StageResult β)
    (hr : (relaysOf r.trace).length = (unlocksOf r.trace).length)
    (hf : ∀ a, (relaysOf (f a).trace).length = (unlocksOf (f a).trace).length) :
    (relaysOf (r.andThen f).trace).length = (unlocksOf (r.andThen f).trace).length := by
  cases r with
  | ok t a =>
      have hfa := hf a
      simp only [StageResult.trace] at hr
      show (relaysOf (StageResult.prepend t (f a)).trace).length =
        (unlocksOf (StageResult.prepend t (f a)).trace).length
      cases hc : f a with
      | ok t2 b =>
          rw [hc] at hfa
          simp only [StageResult.trace] at hfa
          simp only [StageResult.prepend, StageResult.trace, relaysOf_append,
            unlocksOf_append, List.length_append, hr, hfa]
      | fail t2 m =>
          rw [hc] at hfa
          simp only [StageResult.trace] at hfa
          simp only [StageResult.prepend, StageResult.trace, relaysOf_append,
            unlocksOf_append, List.length_append, hr, hfa]
      | crash t2 =>
          rw [hc] at hfa
          simp only [StageResult.trace] at hfa
          simp only [StageResult.prepend, StageResult.trace, relaysOf_append,
            unlocksOf_append, List.length_append, hr, hfa]
  | fail t m => exact hr
  | crash t => exact hr

theorem GetSlackAuthToken_balanced (env : Env) (st : PState) :
    (relaysOf (GetSlackAuthToken env st).trace).length =
      (unlocksOf (GetSlackAuthToken env st).trace).length := by
  rw [GetSlackAuthToken_relayFree, GetSlackAuthToken_unlockFree]
  rfl

theorem CheckSlackAuthToken_balanced (st : PState) :
    (relaysOf (CheckSlackAuthToken st).trace).length =
      (unlocksOf (CheckSlackAuthToken st).trace).length := by
  rw [CheckSlackAuthToken_relayFree, CheckSlackAuthToken_unlockFree]
  rfl

theorem GetCallingUser_balanced (env : Env) (st : PState) :
    (relaysOf (GetCallingUser env st).trace).length =
      (unlocksOf (GetCallingUser env st).trace).length := by
  rw [GetCallingUser_relayFree, GetCallingUser_unlockFree]
  rfl

theorem CheckCallingUser_balanced (env : Env) (st : PState) :
    (relaysOf (CheckCallingUser env st).trace).length =
      (unlocksOf (CheckCallingUser env st).trace).length := by
  rw [CheckCallingUser_relayFree, CheckCallingUser_unlockFree]
  rfl

theorem RegisterUserAttempt_balanced (env : Env) (st : PState) :
    (relaysOf (RegisterUserAttempt env st).trace).length =
      (unlocksOf (RegisterUserAttempt env st).trace).length := by
  rw [RegisterUserAttempt_relayFree, RegisterUserAttempt_unlockFree]
  rfl

theorem GetLogins_balanced (env : Env) (st : PState) :
    (relaysOf (GetLogins env st).trace).length =
      (unlocksOf (GetLogins env st).trace).length := by
  rw [GetLogins_relayFree, GetLogins_unlockFree]
  rfl

theorem Login_balanced (env : Env) (st : PState) :
    (relaysOf (Login env st).trace).length =
      (unlocksOf (Login env st).trace).length := by
  rw [Login_relayFree, Login_unlockFree]
  rfl

/-- The whole waterfall relays exactly one message per unlock call it makes,
whatever the command: only the unlock loop relays, one message per door. -/
theorem runWaterfall_balance (env : Env) (st : PState) :
    (relaysOf (runWaterfall env st).trace).length =
      (unlocksOf (runWaterfall env st).trace).length := by
  unfold runWaterfall
  refine balance_andThen _ _ (GetSlackAuthToken_balanced env st) ?_
  intro s1
  refine balance_andThen _ _ (CheckSlackAuthToken_balanced s1) ?_
  intro s2
  refine balance_andThen _ _ (GetCallingUser_balanced env s2) ?_
  intro s3
  refine balance_andThen _ _ (CheckCallingUser_balanced env s3) ?_
  intro s4
  refine balance_andThen _ _ (RegisterUserAttempt_balanced env s4) ?_
  intro s5
  refine balance_andThen _ _ (GetLogins_balanced env s5) ?_
  intro s6
  refine balance_andThen _ _ (Login_balanced env s6) ?_
  intro s7
  exact GetDispatchHandler_balance env s7

/-- C8 (amended): every completing request makes exactly one relay delivery
more than the number of unlock calls it issues, because the completion
callback always runs `respond(err || message)` exactly once — so exactly
one delivery for every non-unlock command and for unlock/open requests that
fail before the unlock loop (they issue no unlock call); a request that
reaches the unlock loop through `unlock` or its synonym `open` relays one
message per door, in order, followed by that one additional terminating
delivery with no text (`respond(undefined)`). -/
theorem C8_relay_discipline (env : Env) (req : Request) :
    ((handle env req).outcome = .ok →
      (relaysOf (handle env req).trace).length =
        (unlocksOf (handle env req).trace).length + 1)
    ∧ (req.command ≠ "unlock" → req.command ≠ "open" →
      (handle env req).outcome = .ok →
      (relaysOf (handle env req).trace).length = 1)
    ∧ (∀ u ls secret exp d k rest,
        (splitText req.text).get? 0 ≠ some "help" →
        req.command = "unlock" ∨ req.command = "open" →
        env.getToken = .ok (some req.token) →
        env.getUser = .ok (some u) →
        u.enabled = true →
        rateLimitBlocked env.now u = false →
        env.updateAttemptsResult = none →
        env.getLogins = .ok (some ls) →
        ls ≠ [] →
        env.signIn = .ok secret →
        splitText req.text = k :: rest →
        k ≠ "bw" →
        DOOR_CODES.find? (fun c => c.key = toLowerStr k) = some d →
        u.expires = some exp →
        ¬ exp < env.now →
        relaysOf (handle env req).trace =
          [some (d.name ++ ": " ++ unlockMessage env d), none])
    ∧ (∀ u ls secret exp rest,
        req.command = "unlock" ∨ req.command = "open" →
        env.getToken = .ok (some req.token) →
        env.getUser = .ok (some u) →
        u.enabled = true →
        rateLimitBlocked env.now u = false →
        env.updateAttemptsResult = none →
        env.getLogins = .ok (some ls) →
        ls ≠ [] →
        env.signIn = .ok secret →
        splitText req.text = "bw" :: rest →
        u.expires = some exp →
        ¬ exp < env.now →
        env.latency "3768" ≤ 9990 →
        relaysOf (handle env req).trace =
          [some ("Brip West Outer: " ++ unlockMessage env bwOuter),
           some ("Brip West Inner: " ++ unlockMessage env bwInner), none]) := by
  refine ⟨?_, ?_, ?_, ?_⟩
  · intro hok
    by_cases hhelp : (splitText req.text).get? 0 = some "help"
    · have heq : handle env req = ⟨[.relay (some GetHelp)], .ok⟩ := by
        unfold handle
        rw [if_neg (splitText_length_ne_zero req.text), if_pos hhelp]
      rw [heq]
      rfl
    · have heq : handle env req =
          finishRelay (runWaterfall env (initState (splitText req.text) req)) := by
        unfold handle
        rw [if_neg (splitText_length_ne_zero req.text), if_neg hhelp]
      have hbal := runWaterfall_balance env (initState (splitText req.text) req)
      rcases hw : runWaterfall env (initState (splitText req.text) req) with ⟨t, m⟩ | ⟨t, e⟩ | t
      · rw [hw] at hbal
        simp only [StageResult.trace] at hbal
        rw [heq, hw]
        dsimp only [finishRelay]
        rw [relaysOf_append, unlocksOf_append]
        have h1 : (relaysOf [Effect.relay m]).length = 1 := rfl
        have h2 : (unlocksOf [Effect.relay m]).length = 0 := rfl
        simp only [List.length_append, h1, h2]
        omega
      · rw [hw] at hbal
        simp only [StageResult.trace] at hbal
        rw [heq, hw]
        dsimp only [finishRelay]
        rw [relaysOf_append, unlocksOf_append]
        have h1 : (relaysOf [Effect.relay (if e = "" then none else some e)]).length = 1 := rfl
        have h2 : (unlocksOf [Effect.relay (if e = "" then none else some e)]).length = 0 := rfl
        simp only [List.length_append, h1, h2]
        omega
      · rw [heq, hw] at hok
        cases hok
  · intro hnu hno hok
    by_cases hhelp : (splitText req.text).get? 0 = some "help"
    · have heq : handle env req = ⟨[.relay (some GetHelp)], .ok⟩ := by
        unfold handle
        rw [if_neg (splitText_length_ne_zero req.text), if_pos hhelp]
      rw [heq]
      rfl
    · have heq : handle env req =
          finishRelay (runWaterfall env (initState (splitText req.text) req)) := by
        unfold handle
        rw [if_neg (splitText_length_ne_zero req.text), if_neg hhelp]
      have hfree : relaysOf (runWaterfall env (initState (splitText req.text) req)).trace = [] :=
        runWaterfall_relayFree env _ hnu hno
      rcases hw : runWaterfall env (initState (splitText req.text) req) with ⟨t, m⟩ | ⟨t, e⟩ | t
      · rw [hw] at hfree
        simp only [StageResult.trace] at hfree
        rw [heq, hw]
        dsimp only [finishRelay]
        rw [relaysOf_append, hfree]
        rfl
      · rw [hw] at hfree
        simp only [StageResult.trace] at hfree
        rw [heq, hw]
        dsimp only [finishRelay]
        rw [relaysOf_append, hfree]
        rfl
      · rw [heq, hw] at hok
        cases hok
  · intro u ls secret exp d k rest hhelp hcmd htok huser hen hrl hupd hlog hlne hsign
      hsplit hk hfind hexp hvalid
    have hidx : env.randIndex % ls.length < ls.length :=
      Nat.mod_lt _ (List.length_pos.mpr hlne)
    have hc : ls.get? (env.randIndex % ls.length) = some (ls.get ⟨_, hidx⟩) := by
      rw [List.get?_eq_getElem?]
      exact List.getElem?_eq_getElem hidx
    rcases hcmd with hcmd | hcmd
    · unfold handle
      rw [if_neg (splitText_length_ne_zero req.text), if_neg hhelp]
      simp only [runWaterfall, GetSlackAuthToken, CheckSlackAuthToken, GetCallingUser,
        CheckCallingUser, RegisterUserAttempt, GetLogins, Login, GetDispatchHandler,
        UnlockHandler, initState, StageResult.andThen, StageResult.prepend,
        htok, huser, hen, hrl, hupd, hlog, hsign, hcmd, hc, hsplit, hexp, finishRelay]
      simp [relaysOf, allSome, unlockTimeline, doorUnlockStream, mergeEvents,
        mergeEventsFuel, List.enum, List.enumFrom, hvalid, hk, hfind, hexp, hc]
    · unfold handle
      rw [if_neg (splitText_length_ne_zero req.text), if_neg hhelp]
      simp only [runWaterfall, GetSlackAuthToken, CheckSlackAuthToken, GetCallingUser,
        CheckCallingUser, RegisterUserAttempt, GetLogins, Login, GetDispatchHandler,
        UnlockHandler, initState, StageResult.andThen, StageResult.prepend,
        htok, huser, hen, hrl, hupd, hlog, hsign, hcmd, hc, hsplit, hexp, finishRelay]
      simp [relaysOf, allSome, unlockTimeline, doorUnlockStream, mergeEvents,
        mergeEventsFuel, List.enum, List.enumFrom, hvalid, hk, hfind, hexp, hc]
  · intro u ls secret exp rest hcmd htok huser hen hrl hupd hlog hlne hsign
      hsplit hexp hvalid hlat
    have hhelp : (splitText req.text).get? 0 ≠ some "help" := by
      rw [hsplit]
      simp
    have hidx : env.randIndex % ls.length < ls.length :=
      Nat.mod_lt _ (List.length_pos.mpr hlne)
    have hc : ls.get? (env.randIndex % ls.length) = some (ls.get ⟨_, hidx⟩) := by
      rw [List.get?_eq_getElem?]
      exact List.getElem?_eq_getElem hidx
    have h1 : 10 + env.latency "3768" ≤ 10000 := by omega
    rcases hcmd with hcmd | hcmd
    · unfold handle
      rw [if_neg (splitText_length_ne_zero req.text), if_neg hhelp]
      simp only [runWaterfall, GetSlackAuthToken, CheckSlackAuthToken, GetCallingUser,
        CheckCallingUser, RegisterUserAttempt, GetLogins, Login, GetDispatchHandler,
        UnlockHandler, initState, StageResult.andThen, StageResult.prepend,
        htok, huser, hen, hrl, hupd, hlog, hsign, hcmd, hc, hsplit, hexp, finishRelay]
      simp [relaysOf, allSome, unlockTimeline, doorUnlockStream, mergeEvents,
        mergeEventsFuel, List.enum, List.enumFrom, hvalid, h1, DOOR_CODES, List.find?,
        bwOuter, bwInner, unlockMessage, hexp, hc]
    · unfold handle
      rw [if_neg (splitText_length_ne_zero req.text), if_neg hhelp]
      simp only [runWaterfall, GetSlackAuthToken, CheckSlackAuthToken, GetCallingUser,
        CheckCallingUser, RegisterUserAttempt, GetLogins, Login, GetDispatchHandler,
        UnlockHandler, initState, StageResult.andThen, StageResult.prepend,
        htok, huser, hen, hrl, hupd, hlog, hsign, hcmd, hc, hsplit, hexp, finishRelay]
      simp [relaysOf, allSome, unlockTimeline, doorUnlockStream, mergeEvents,
        mergeEventsFuel, List.enum, List.enumFrom, hvalid, h1, DOOR_CODES, List.find?,
        bwOuter, bwInner, unlockMessage, hexp, hc]


/-- C8 counterexample to the claim as stated: a single-door unlock request
(not a compound one) makes two relay deliveries — the door's result and the
trailing `respond(undefined)` of the completion callback — not exactly
one. -/
theorem C8_single_unlock_two_relays :
    relaysOf (handle envGood ⟨"bwo", "unlock", "tok", "U1"⟩).trace =
      [some "Brip West Outer: Unlocked!", none]
    ∧ (relaysOf (handle envGood ⟨"bwo", "unlock", "tok", "U1"⟩).trace).length ≠ 1 := by
  decide

/-- C8 witness: all four branches of the amended statement at concrete
inputs — a completing unlock request that fails before the loop (unknown
door) relays once, one more than its zero unlock calls; a status request
relays exactly once; a single-door request through the `open` synonym
relays the door result plus the empty terminator; `bw` relays both door
results plus the empty terminator. -/
theorem C8_relay_discipline_witness :
    (relaysOf (handle envGood ⟨"xyz", "unlock", "tok", "U1"⟩).trace).length =
      (unlocksOf (handle envGood ⟨"xyz", "unlock", "tok", "U1"⟩).trace).length + 1
    ∧ (relaysOf (handle envGood ⟨"zzz", "status", "tok", "U1"⟩).trace).length = 1
    ∧ relaysOf (handle envGood ⟨"bwo", "open", "tok", "U1"⟩).trace =
        [some (bwOuter.name ++ ": " ++ unlockMessage envGood bwOuter), none]
    ∧ relaysOf (handle envGood ⟨"bw", "unlock", "tok", "U1"⟩).trace =
        [some ("Brip West Outer: " ++ unlockMessage envGood bwOuter),
         some ("Brip West Inner: " ++ unlockMessage envGood bwInner), none] :=
  ⟨(C8_relay_discipline envGood ⟨"xyz", "unlock", "tok", "U1"⟩).1 (by decide),
   (C8_relay_discipline envGood ⟨"zzz", "status", "tok", "U1"⟩).2.1
      (by decide) (by decide) (by decide),
   (C8_relay_discipline envGood ⟨"bwo", "open", "tok", "U1"⟩).2.2.1
      goodUser [⟨"alice", "pw"⟩] "secret" 100000 bwOuter "bwo" []
      (by decide) (Or.inr rfl) rfl rfl rfl rfl rfl rfl (by decide) rfl
      (by decide) (by decide) (by decide) rfl (by decide),
   (C8_relay_discipline envGood ⟨"bw", "unlock", "tok", "U1"⟩).2.2.2
      goodUser [⟨"alice", "pw"⟩] "secret" 100000 []
      (Or.inl rfl) rfl rfl rfl rfl rfl rfl (by decide) rfl
      (by decide) rfl (by decide) (by decide)⟩

end Speakeasy
